import Mathlib

/-!
Shallow embedding of the Government OOH Booking System
(shared/schema.ts, server/storage.ts, server/routes.ts and the
client inventory page) and proofs about its access-control,
validation, aggregation and persistence behaviour.

Modelling conventions:
* `varchar`/`text` columns are `String`; nullable columns are `Option`.
* `timestamp` columns are `Nat` (an abstract instant); handlers that the
  source gives `new Date()` / `defaultNow()` take an explicit `now : Nat`.
* `decimal(p,2)` columns are exact integer numbers of cents (`Int`), the
  exact-precision numeric value the database stores; rendering back to the
  decimal string the API returns is `decimalToString`.
* `gen_random_uuid()` is a fresh-id counter on the store state.
* JavaScript truthiness of an optional string (`undefined`/`null`/`""`
  falsy) is `jsTruthyStr`.
-/

namespace OOH

/-- Roles a user can hold (schema.ts `userRoleEnum`). -/
inductive Role
  | department_admin
  | campaign_planner
  | finance_officer
  | supplier_admin
  | supplier_user
  | auditor
deriving DecidableEq, Repr

/-- Campaign lifecycle states (schema.ts `campaignStatusEnum`). -/
inductive CampaignStatus
  | draft
  | pending_approval
  | approved
  | in_progress
  | completed
  | cancelled
deriving DecidableEq, Repr

/-- Booking states (schema.ts `bookingStatusEnum`). -/
inductive BookingStatus
  | pending
  | approved
  | rejected
  | in_progress
  | completed
deriving DecidableEq, Repr

/-- Document categories (schema.ts `documentTypeEnum`). -/
inductive DocumentType
  | artwork
  | proof_of_flighting
  | compliance_sbd
  | compliance_cso
  | invoice
  | other
deriving DecidableEq, Repr

/-- Inventory availability states (schema.ts `inventoryStatusEnum`). -/
inductive InventoryStatus
  | available
  | booked
  | maintenance
  | reserved
deriving DecidableEq, Repr

/-- The string a pg enum value of `inventoryStatusEnum` serialises to;
query-string filters compare against it (`i.status === status`). -/
def inventoryStatusToString : InventoryStatus → String
  | .available => "available"
  | .booked => "booked"
  | .maintenance => "maintenance"
  | .reserved => "reserved"

/-- A row of the `users` table. -/
structure User where
  id : String
  username : String
  password : String
  fullName : String
  email : String
  role : Role
  supplierId : Option String
  active : Bool
deriving DecidableEq, Repr

/-- A row of the `suppliers` table. -/
structure Supplier where
  id : String
  name : String
  contactPerson : String
  email : String
  phone : Option String
  address : Option String
  active : Bool
deriving DecidableEq, Repr

/-- A row of the `campaigns` table. -/
structure Campaign where
  id : String
  name : String
  description : Option String
  status : CampaignStatus
  budget : Option Int
  startDate : Option Nat
  endDate : Option Nat
  region : Option String
  targetReach : Option Int
  createdBy : String
  createdAt : Nat
deriving DecidableEq, Repr

/-- A row of the `bookings` table. -/
structure Booking where
  id : String
  campaignId : String
  supplierId : String
  siteDescription : String
  location : Option String
  mediaType : Option String
  cost : Option Int
  status : BookingStatus
  startDate : Option Nat
  endDate : Option Nat
  createdAt : Nat
deriving DecidableEq, Repr

/-- A row of the `documents` table. -/
structure Document where
  id : String
  campaignId : Option String
  bookingId : Option String
  type : DocumentType
  fileName : String
  fileSize : Int
  mimeType : Option String
  status : String
  gpsLatitude : Option String
  gpsLongitude : Option String
  capturedAt : Option Nat
  uploadedBy : String
  uploadedAt : Nat
deriving DecidableEq, Repr

/-- A row of the `invoices` table. -/
structure Invoice where
  id : String
  campaignId : String
  supplierId : Option String
  invoiceNumber : String
  amount : Int
  status : String
  issuedAt : Option Nat
  dueDate : Option Nat
  createdAt : Nat
deriving DecidableEq, Repr

/-- A row of the `inventory` table. -/
structure Inventory where
  id : String
  supplierId : String
  screenName : String
  screenType : String
  location : String
  region : String
  gpsLatitude : Option String
  gpsLongitude : Option String
  dimensions : Option String
  resolution : Option String
  facing : Option String
  dailyRate : Int
  weeklyRate : Option Int
  monthlyRate : Option Int
  status : InventoryStatus
  availableFrom : Option Nat
  availableTo : Option Nat
  illuminated : Bool
  digital : Bool
  trafficCount : Option Int
  notes : Option String
  active : Bool
  updatedAt : Nat
deriving DecidableEq, Repr

/-- `InsertUser` (insertUserSchema: users minus `id`); Lean default values
mirror the columns' database defaults. -/
structure InsertUser where
  username : String
  password : String
  fullName : String
  email : String
  role : Role := .campaign_planner
  supplierId : Option String := none
  active : Bool := true
deriving DecidableEq, Repr

/-- `InsertSupplier` (insertSupplierSchema: suppliers minus `id`). -/
structure InsertSupplier where
  name : String
  contactPerson : String
  email : String
  phone : Option String := none
  address : Option String := none
  active : Bool := true
deriving DecidableEq, Repr

/-- `InsertCampaign` (insertCampaignSchema: campaigns minus `id`, `createdAt`). -/
structure InsertCampaign where
  name : String
  description : Option String := none
  status : CampaignStatus := .draft
  budget : Option Int := none
  startDate : Option Nat := none
  endDate : Option Nat := none
  region : Option String := none
  targetReach : Option Int := none
  createdBy : String
deriving DecidableEq, Repr

/-- `InsertBooking` (insertBookingSchema: bookings minus `id`, `createdAt`). -/
structure InsertBooking where
  campaignId : String
  supplierId : String
  siteDescription : String
  location : Option String := none
  mediaType : Option String := none
  cost : Option Int := none
  status : BookingStatus := .pending
  startDate : Option Nat := none
  endDate : Option Nat := none
deriving DecidableEq, Repr

/-- `InsertInvoice` (insertInvoiceSchema: invoices minus `id`, `createdAt`). -/
structure InsertInvoice where
  campaignId : String
  supplierId : Option String := none
  invoiceNumber : String
  amount : Int
  status : String := "draft"
  issuedAt : Option Nat := none
  dueDate : Option Nat := none
deriving DecidableEq, Repr

/-- `InsertInventory` (insertInventorySchema: inventory minus `id`, `updatedAt`). -/
structure InsertInventory where
  supplierId : String
  screenName : String
  screenType : String
  location : String
  region : String
  gpsLatitude : Option String := none
  gpsLongitude : Option String := none
  dimensions : Option String := none
  resolution : Option String := none
  facing : Option String := none
  dailyRate : Int
  weeklyRate : Option Int := none
  monthlyRate : Option Int := none
  status : InventoryStatus := .available
  availableFrom : Option Nat := none
  availableTo : Option Nat := none
  illuminated : Bool := false
  digital : Bool := false
  trafficCount : Option Int := none
  notes : Option String := none
  active : Bool := true
deriving DecidableEq, Repr

/-- The relational store the persistence layer (DatabaseStorage) acts on,
one list per table, plus the fresh-id counter standing for
`gen_random_uuid()`. -/
structure St where
  users : List User := []
  suppliers : List Supplier := []
  campaigns : List Campaign := []
  bookings : List Booking := []
  documents : List Document := []
  invoices : List Invoice := []
  inventory : List Inventory := []
  nextId : Nat := 0
deriving DecidableEq, Repr

/-- The generated unique identifier the next insert receives. -/
def freshId (st : St) : String := "uuid-" ++ toString st.nextId

/-! ## Persistence layer (server/storage.ts, class DatabaseStorage)

An UPDATE with a Partial payload is a record of optional fields: an absent
field leaves the column alone, a present one overwrites it.  `dbUpdateById`
models `db.update(t).set(f).where(eq(t.id, id)).returning()` followed by
the destructuring `[updated] = ...`: every matching row is rewritten in
place and the first matching row, rewritten, is returned. -/

/-- Update every row whose id matches, returning the new table and the first
updated row (as `.returning()` destructured to `[updated]`). -/
def dbUpdateById {α : Type} (rows : List α) (getId : α → String) (id : String)
    (f : α → α) : List α × Option α :=
  (rows.map fun r => if getId r == id then f r else r,
   (rows.find? fun r => getId r == id).map f)

/-- `Partial<InsertUser>` for `updateUser`. -/
structure UserPatch where
  username : Option String := none
  password : Option String := none
  fullName : Option String := none
  email : Option String := none
  role : Option Role := none
  supplierId : Option (Option String) := none
  active : Option Bool := none
deriving DecidableEq, Repr

/-- Apply a `Partial<InsertUser>` payload to a row (drizzle `.set(data)`). -/
def applyUserPatch (p : UserPatch) (u : User) : User :=
  { u with
    username := p.username.getD u.username
    password := p.password.getD u.password
    fullName := p.fullName.getD u.fullName
    email := p.email.getD u.email
    role := p.role.getD u.role
    supplierId := p.supplierId.getD u.supplierId
    active := p.active.getD u.active }

/-- `Partial<InsertSupplier>` for `updateSupplier`. -/
structure SupplierPatch where
  name : Option String := none
  contactPerson : Option String := none
  email : Option String := none
  phone : Option (Option String) := none
  address : Option (Option String) := none
  active : Option Bool := none
deriving DecidableEq, Repr

/-- Apply a `Partial<InsertSupplier>` payload to a row. -/
def applySupplierPatch (p : SupplierPatch) (s : Supplier) : Supplier :=
  { s with
    name := p.name.getD s.name
    contactPerson := p.contactPerson.getD s.contactPerson
    email := p.email.getD s.email
    phone := p.phone.getD s.phone
    address := p.address.getD s.address
    active := p.active.getD s.active }

/-- `Partial<InsertInventory>` for `updateInventoryItem` (no `updatedAt`
field: the insert schema omits it). -/
structure InventoryPatch where
  supplierId : Option String := none
  screenName : Option String := none
  screenType : Option String := none
  location : Option String := none
  region : Option String := none
  gpsLatitude : Option (Option String) := none
  gpsLongitude : Option (Option String) := none
  dimensions : Option (Option String) := none
  resolution : Option (Option String) := none
  facing : Option (Option String) := none
  dailyRate : Option Int := none
  weeklyRate : Option (Option Int) := none
  monthlyRate : Option (Option Int) := none
  status : Option InventoryStatus := none
  availableFrom : Option (Option Nat) := none
  availableTo : Option (Option Nat) := none
  illuminated : Option Bool := none
  digital : Option Bool := none
  trafficCount : Option (Option Int) := none
  notes : Option (Option String) := none
  active : Option Bool := none
deriving DecidableEq, Repr

/-- Apply a `Partial<InsertInventory>` payload to a row. -/
def applyInventoryPatch (p : InventoryPatch) (i : Inventory) : Inventory :=
  { i with
    supplierId := p.supplierId.getD i.supplierId
    screenName := p.screenName.getD i.screenName
    screenType := p.screenType.getD i.screenType
    location := p.location.getD i.location
    region := p.region.getD i.region
    gpsLatitude := p.gpsLatitude.getD i.gpsLatitude
    gpsLongitude := p.gpsLongitude.getD i.gpsLongitude
    dimensions := p.dimensions.getD i.dimensions
    resolution := p.resolution.getD i.resolution
    facing := p.facing.getD i.facing
    dailyRate := p.dailyRate.getD i.dailyRate
    weeklyRate := p.weeklyRate.getD i.weeklyRate
    monthlyRate := p.monthlyRate.getD i.monthlyRate
    status := p.status.getD i.status
    availableFrom := p.availableFrom.getD i.availableFrom
    availableTo := p.availableTo.getD i.availableTo
    illuminated := p.illuminated.getD i.illuminated
    digital := p.digital.getD i.digital
    trafficCount := p.trafficCount.getD i.trafficCount
    notes := p.notes.getD i.notes
    active := p.active.getD i.active }

/-- `getUser`: select the first row with the given id. -/
def getUser (st : St) (id : String) : Option User :=
  st.users.find? fun u => u.id == id

/-- `getUserByUsername`. -/
def getUserByUsername (st : St) (username : String) : Option User :=
  st.users.find? fun u => u.username == username

/-- `createUser`: insert with a generated id, returning the created row. -/
def createUser (st : St) (d : InsertUser) : St × User :=
  let u : User :=
    { id := freshId st, username := d.username, password := d.password,
      fullName := d.fullName, email := d.email, role := d.role,
      supplierId := d.supplierId, active := d.active }
  ({ st with users := st.users ++ [u], nextId := st.nextId + 1 }, u)

/-- `getUsers`. -/
def getUsers (st : St) : List User := st.users

/-- `updateUser`. -/
def updateUser (st : St) (id : String) (p : UserPatch) : St × Option User :=
  let r := dbUpdateById st.users User.id id (applyUserPatch p)
  ({ st with users := r.1 }, r.2)

/-- `getSuppliers`. -/
def getSuppliers (st : St) : List Supplier := st.suppliers

/-- `getSupplier`. -/
def getSupplier (st : St) (id : String) : Option Supplier :=
  st.suppliers.find? fun s => s.id == id

/-- `createSupplier`. -/
def createSupplier (st : St) (d : InsertSupplier) : St × Supplier :=
  let s : Supplier :=
    { id := freshId st, name := d.name, contactPerson := d.contactPerson,
      email := d.email, phone := d.phone, address := d.address,
      active := d.active }
  ({ st with suppliers := st.suppliers ++ [s], nextId := st.nextId + 1 }, s)

/-- `updateSupplier`. -/
def updateSupplier (st : St) (id : String) (p : SupplierPatch) :
    St × Option Supplier :=
  let r := dbUpdateById st.suppliers Supplier.id id (applySupplierPatch p)
  ({ st with suppliers := r.1 }, r.2)

/-- `getCampaigns`. -/
def getCampaigns (st : St) : List Campaign := st.campaigns

/-- `getCampaign`. -/
def getCampaign (st : St) (id : String) : Option Campaign :=
  st.campaigns.find? fun c => c.id == id

/-- `createCampaign` (`createdAt` takes its `defaultNow()` from `now`). -/
def createCampaign (st : St) (d : InsertCampaign) (now : Nat) : St × Campaign :=
  let c : Campaign :=
    { id := freshId st, name := d.name, description := d.description,
      status := d.status, budget := d.budget, startDate := d.startDate,
      endDate := d.endDate, region := d.region, targetReach := d.targetReach,
      createdBy := d.createdBy, createdAt := now }
  ({ st with campaigns := st.campaigns ++ [c], nextId := st.nextId + 1 }, c)

/-- `deleteCampaign`: delete every row with the id, report whether the
`returning()` list was nonempty. -/
def deleteCampaign (st : St) (id : String) : St × Bool :=
  let result := st.campaigns.filter fun c => c.id == id
  ({ st with campaigns := st.campaigns.filter fun c => !(c.id == id) },
   decide (result.length > 0))

/-- `getBookings`. -/
def getBookings (st : St) : List Booking := st.bookings

/-- `createBooking`. -/
def createBooking (st : St) (d : InsertBooking) (now : Nat) : St × Booking :=
  let b : Booking :=
    { id := freshId st, campaignId := d.campaignId, supplierId := d.supplierId,
      siteDescription := d.siteDescription, location := d.location,
      mediaType := d.mediaType, cost := d.cost, status := d.status,
      startDate := d.startDate, endDate := d.endDate, createdAt := now }
  ({ st with bookings := st.bookings ++ [b], nextId := st.nextId + 1 }, b)

/-- `createInvoice`. -/
def createInvoice (st : St) (d : InsertInvoice) (now : Nat) : St × Invoice :=
  let v : Invoice :=
    { id := freshId st, campaignId := d.campaignId, supplierId := d.supplierId,
      invoiceNumber := d.invoiceNumber, amount := d.amount, status := d.status,
      issuedAt := d.issuedAt, dueDate := d.dueDate, createdAt := now }
  ({ st with invoices := st.invoices ++ [v], nextId := st.nextId + 1 }, v)

/-- `getInventory`. -/
def getInventory (st : St) : List Inventory := st.inventory

/-- `getInventoryItem`. -/
def getInventoryItem (st : St) (id : String) : Option Inventory :=
  st.inventory.find? fun i => i.id == id

/-- `createInventoryItem` (`updatedAt` takes its `defaultNow()` from `now`). -/
def createInventoryItem (st : St) (d : InsertInventory) (now : Nat) :
    St × Inventory :=
  let i : Inventory :=
    { id := freshId st, supplierId := d.supplierId, screenName := d.screenName,
      screenType := d.screenType, location := d.location, region := d.region,
      gpsLatitude := d.gpsLatitude, gpsLongitude := d.gpsLongitude,
      dimensions := d.dimensions, resolution := d.resolution,
      facing := d.facing, dailyRate := d.dailyRate,
      weeklyRate := d.weeklyRate, monthlyRate := d.monthlyRate,
      status := d.status, availableFrom := d.availableFrom,
      availableTo := d.availableTo, illuminated := d.illuminated,
      digital := d.digital, trafficCount := d.trafficCount, notes := d.notes,
      active := d.active, updatedAt := now }
  ({ st with inventory := st.inventory ++ [i], nextId := st.nextId + 1 }, i)

/-- `updateInventoryItem`: `.set({ ...data, updatedAt: new Date() })` — the
payload is applied and `updatedAt` is then forced to the present instant. -/
def updateInventoryItem (st : St) (id : String) (p : InventoryPatch)
    (now : Nat) : St × Option Inventory :=
  let r := dbUpdateById st.inventory Inventory.id id
    (fun i => { applyInventoryPatch p i with updatedAt := now })
  ({ st with inventory := r.1 }, r.2)

/-! ## Aggregation (DatabaseStorage.getDashboardStats) -/

/-- Aggregated statistics displayed on the main dashboard
(`DashboardStats`); `totalSpend` is a decimal-as-string. -/
structure DashboardStats where
  totalCampaigns : Nat
  activeCampaigns : Nat
  totalBookings : Nat
  totalSpend : String
  pendingBookings : Nat
  completedBookings : Nat
deriving DecidableEq, Repr

/-- SQL `SUM` over a nullable numeric column: starts as NULL and folds in
the non-null values; NULL when no non-null value exists. -/
def sqlSum (xs : List (Option Int)) : Option Int :=
  xs.foldl (fun acc x =>
    match x with
    | none => acc
    | some v => some (acc.getD 0 + v)) none

/-- Render an exact numeric of scale 2 (stored as cents) to the decimal
string the driver hands to JavaScript. -/
def decimalToString (cents : Int) : String :=
  let a := cents.natAbs
  (if cents < 0 then "-" else "") ++ toString (a / 100) ++ "." ++
    (if a % 100 < 10 then "0" else "") ++ toString (a % 100)

/-- JavaScript `s || dflt` on a nullable string: NULL and `""` fall back. -/
def jsOrStr (s : Option String) (dflt : String) : String :=
  match s with
  | none => dflt
  | some v => if v == "" then dflt else v

/-- `getDashboardStats`: six independent aggregate queries;
`totalSpend: spendStats.total || "0"`. -/
def getDashboardStats (st : St) : DashboardStats :=
  { totalCampaigns := st.campaigns.length
    activeCampaigns :=
      (st.campaigns.filter fun c => c.status == CampaignStatus.in_progress).length
    totalBookings := st.bookings.length
    totalSpend :=
      jsOrStr ((sqlSum (st.bookings.map Booking.cost)).map decimalToString) "0"
    pendingBookings :=
      (st.bookings.filter fun b => b.status == BookingStatus.pending).length
    completedBookings :=
      (st.bookings.filter fun b => b.status == BookingStatus.completed).length }

/-! ## API layer (server/routes.ts) -/

/-- JavaScript truthiness of an optional string: `undefined`, `null` and
`""` are falsy, every other string truthy. -/
def jsTruthyStr : Option String → Bool
  | none => false
  | some s => !(s == "")

/-- The user object with the `password` field removed
(`const { password: _, ...userWithoutPassword } = user`). -/
structure AuthUser where
  id : String
  username : String
  fullName : String
  email : String
  role : Role
  supplierId : Option String
  active : Bool
deriving DecidableEq, Repr

/-- Strip the password field from a user row. -/
def stripPassword (u : User) : AuthUser :=
  { id := u.id, username := u.username, fullName := u.fullName,
    email := u.email, role := u.role, supplierId := u.supplierId,
    active := u.active }

/-- Response of `POST /api/auth/login`. -/
inductive LoginResp
  | ok (user : AuthUser)
  | badRequest (message : String)
  | unauthorized (message : String)
deriving DecidableEq, Repr

/-- `POST /api/auth/login`: reject falsy credentials with 400, look the
username up, compare passwords as plain strings, and return the user with
the password stripped on a match, 401 otherwise. -/
def login (st : St) (username password : String) : LoginResp :=
  if !(jsTruthyStr (some username)) || !(jsTruthyStr (some password)) then
    .badRequest "Username and password are required"
  else
    match getUserByUsername st username with
    | none => .unauthorized "Invalid credentials"
    | some user =>
        if user.password == password then .ok (stripPassword user)
        else .unauthorized "Invalid credentials"

/-- Raw JSON body of `POST /api/campaigns` before validation: a field is
`none` when the key is absent; nullable columns distinguish an explicit
null (`some none`) from absence. -/
structure CampaignBody where
  name : Option String := none
  description : Option (Option String) := none
  status : Option CampaignStatus := none
  budget : Option (Option Int) := none
  startDate : Option (Option Nat) := none
  endDate : Option (Option Nat) := none
  region : Option (Option String) := none
  targetReach : Option (Option Int) := none
  createdBy : Option String := none
deriving DecidableEq, Repr

/-- `insertCampaignSchema.parse`: `name` and `createdBy` are the not-null
columns without database defaults, so they are the required keys; a failed
parse raises a ZodError naming each offending field. -/
def validateCampaign (b : CampaignBody) : Except (List String) InsertCampaign :=
  match b.name, b.createdBy with
  | some n, some cb =>
      .ok { name := n, description := b.description.getD none,
            status := b.status.getD .draft, budget := b.budget.getD none,
            startDate := b.startDate.getD none, endDate := b.endDate.getD none,
            region := b.region.getD none,
            targetReach := b.targetReach.getD none, createdBy := cb }
  | _, _ =>
      .error ((if b.name.isNone then ["name"] else []) ++
              (if b.createdBy.isNone then ["createdBy"] else []))

/-- Response of `POST /api/campaigns`. -/
inductive CampaignResp
  | created (c : Campaign)
  | validationError (fields : List String)
deriving DecidableEq, Repr

/-- `POST /api/campaigns`: parse the body against the insert schema; on a
ZodError answer 400 with the offending fields and touch nothing, otherwise
persist and answer 201. -/
def postCampaigns (st : St) (b : CampaignBody) (now : Nat) : St × CampaignResp :=
  match validateCampaign b with
  | .error fields => (st, .validationError fields)
  | .ok d =>
      let r := createCampaign st d now
      (r.1, .created r.2)

/-- Query-string parameters of `GET /api/inventory`. -/
structure InventoryQuery where
  supplierId : Option String := none
  region : Option String := none
  status : Option String := none
  screenType : Option String := none
deriving DecidableEq, Repr

/-- One `if (param) items = items.filter(i => get(i) === param)` step. -/
def applyStrFilter (items : List Inventory) (param : Option String)
    (get : Inventory → String) : List Inventory :=
  match param with
  | none => items
  | some v => if v == "" then items else items.filter fun i => get i == v

/-- `GET /api/inventory`: fetch the whole inventory table and narrow it by
each truthy query-string parameter in turn.  Nothing in the handler reads
the caller's identity header or role. -/
def getInventoryHandler (st : St) (q : InventoryQuery) : List Inventory :=
  let items := getInventory st
  let items := applyStrFilter items q.supplierId Inventory.supplierId
  let items := applyStrFilter items q.region Inventory.region
  let items := applyStrFilter items q.status
    (fun i => inventoryStatusToString i.status)
  applyStrFilter items q.screenType Inventory.screenType

/-- Raw JSON body of `POST /api/inventory` before validation. -/
structure InventoryBody where
  supplierId : Option String := none
  screenName : Option String := none
  screenType : Option String := none
  location : Option String := none
  region : Option String := none
  gpsLatitude : Option (Option String) := none
  gpsLongitude : Option (Option String) := none
  dimensions : Option (Option String) := none
  resolution : Option (Option String) := none
  facing : Option (Option String) := none
  dailyRate : Option Int := none
  weeklyRate : Option (Option Int) := none
  monthlyRate : Option (Option Int) := none
  status : Option InventoryStatus := none
  availableFrom : Option (Option Nat) := none
  availableTo : Option (Option Nat) := none
  illuminated : Option Bool := none
  digital : Option Bool := none
  trafficCount : Option (Option Int) := none
  notes : Option (Option String) := none
  active : Option Bool := none
deriving DecidableEq, Repr

/-- `insertInventorySchema.parse`: the required keys are the not-null
columns without database defaults — supplierId, screenName, screenType,
location, region, dailyRate. -/
def validateInventory (b : InventoryBody) :
    Except (List String) InsertInventory :=
  match b.supplierId, b.screenName, b.screenType, b.location, b.region,
      b.dailyRate with
  | some sup, some sn, some sc, some loc, some reg, some dr =>
      .ok { supplierId := sup, screenName := sn, screenType := sc,
            location := loc, region := reg,
            gpsLatitude := b.gpsLatitude.getD none,
            gpsLongitude := b.gpsLongitude.getD none,
            dimensions := b.dimensions.getD none,
            resolution := b.resolution.getD none,
            facing := b.facing.getD none, dailyRate := dr,
            weeklyRate := b.weeklyRate.getD none,
            monthlyRate := b.monthlyRate.getD none,
            status := b.status.getD .available,
            availableFrom := b.availableFrom.getD none,
            availableTo := b.availableTo.getD none,
            illuminated := b.illuminated.getD false,
            digital := b.digital.getD false,
            trafficCount := b.trafficCount.getD none,
            notes := b.notes.getD none, active := b.active.getD true }
  | _, _, _, _, _, _ =>
      .error ((if b.supplierId.isNone then ["supplierId"] else []) ++
              (if b.screenName.isNone then ["screenName"] else []) ++
              (if b.screenType.isNone then ["screenType"] else []) ++
              (if b.location.isNone then ["location"] else []) ++
              (if b.region.isNone then ["region"] else []) ++
              (if b.dailyRate.isNone then ["dailyRate"] else []))

/-- Response of `POST /api/inventory`. -/
inductive InventoryResp
  | created (i : Inventory)
  | validationError (fields : List String)
deriving DecidableEq, Repr

/-- `POST /api/inventory`: parse the body and persist it verbatim.  The
handler never consults the caller's role or supplier affiliation. -/
def postInventory (st : St) (b : InventoryBody) (now : Nat) :
    St × InventoryResp :=
  match validateInventory b with
  | .error fields => (st, .validationError fields)
  | .ok d =>
      let r := createInventoryItem st d now
      (r.1, .created r.2)

/-! ## Client inventory page (client/src/pages/inventory.tsx) -/

/-- `hasRole(...roles)` of the auth context: false with no user, otherwise
membership of the user's role. -/
def hasRole (user : Option AuthUser) (roles : List Role) : Bool :=
  match user with
  | none => false
  | some u => roles.contains u.role

/-- The raw form fields `handleSubmit` reads (`fd.get(...)`: `none` is a
missing field).  Decimal-typed inputs are carried as the exact numeric
they denote. -/
structure InventoryForm where
  supplierId : Option String := none
  screenName : Option String := none
  screenType : Option String := none
  location : Option String := none
  region : Option String := none
  dimensions : Option String := none
  resolution : Option String := none
  facing : Option String := none
  dailyRate : Option Int := none
  weeklyRate : Option Int := none
  monthlyRate : Option Int := none
  illuminated : Option String := none
  digital : Option String := none
  trafficCount : Option Int := none
  notes : Option String := none
deriving DecidableEq, Repr

/-- The body `handleSubmit` posts to `/api/inventory`.  The one line of
client-side supplier forcing is the `supplierId` field:
`isSupplierUser && user?.supplierId ? user.supplierId : fd.get("supplierId")`.
Fields built as `fd.get(...) || undefined` drop falsy values. -/
def buildInventoryBody (user : Option AuthUser) (fd : InventoryForm) :
    InventoryBody :=
  let isSupplierUser := hasRole user [Role.supplier_admin, Role.supplier_user]
  let uSup := user.bind AuthUser.supplierId
  { supplierId :=
      if isSupplierUser && jsTruthyStr uSup then uSup else fd.supplierId
    screenName := fd.screenName
    screenType := fd.screenType
    location := fd.location
    region := fd.region
    dimensions := if jsTruthyStr fd.dimensions then some fd.dimensions else none
    resolution := if jsTruthyStr fd.resolution then some fd.resolution else none
    facing := if jsTruthyStr fd.facing then some fd.facing else none
    dailyRate := fd.dailyRate
    weeklyRate := fd.weeklyRate.map some
    monthlyRate := fd.monthlyRate.map some
    illuminated := some (fd.illuminated == some "true")
    digital := some (fd.digital == some "true")
    trafficCount := fd.trafficCount.map some
    notes := if jsTruthyStr fd.notes then some fd.notes else none
    active := some true }

/-! ## POST /api/seed (server/routes.ts)

Fixture dates (`new Date("2026-01-15")` and so on) are encoded as the
`Nat` yyyymmdd they denote; decimal literals such as `"85000.00"` as the
cents they denote. -/

/-- Response of `POST /api/seed`. -/
inductive SeedResp
  | alreadyExists
  | created
  | serverError
deriving DecidableEq, Repr

/-- The eight inventory fixtures created at the end of the seed handler
(common to both of its branches), followed by the 201 response. -/
def seedInventory (st : St) (sup1 sup2 : String) (now : Nat) : St × SeedResp :=
  let r := createInventoryItem st
    { supplierId := sup1, screenName := "N1 Midrand Billboard A",
      screenType := "Billboard", location := "N1 Highway, Midrand",
      region := "Gauteng", gpsLatitude := some "-25.9892",
      gpsLongitude := some "28.1267", dimensions := some "6m x 3m",
      facing := some "North-facing", dailyRate := 350000,
      weeklyRate := some 2000000, monthlyRate := some 7500000,
      status := .available, illuminated := true, digital := false,
      trafficCount := some 45000, active := true } now
  let r := createInventoryItem r.1
    { supplierId := sup1, screenName := "Sandton Digital Tower",
      screenType := "Digital Screen", location := "Sandton City, Rivonia Rd",
      region := "Gauteng", gpsLatitude := some "-26.1076",
      gpsLongitude := some "28.0567", dimensions := some "4m x 6m",
      resolution := some "1920x1080", facing := some "East-facing",
      dailyRate := 550000, weeklyRate := some 3200000,
      monthlyRate := some 12000000, status := .booked, illuminated := true,
      digital := true, trafficCount := some 80000, active := true } now
  let r := createInventoryItem r.1
    { supplierId := sup1, screenName := "OR Tambo Airport Approach",
      screenType := "Mega Billboard", location := "R21 Highway, OR Tambo",
      region := "Gauteng", gpsLatitude := some "-26.1367",
      gpsLongitude := some "28.2311", dimensions := some "12m x 4m",
      facing := some "South-facing", dailyRate := 800000,
      weeklyRate := some 4800000, monthlyRate := some 18000000,
      status := .available, illuminated := true, digital := false,
      trafficCount := some 120000, active := true } now
  let r := createInventoryItem r.1
    { supplierId := sup2, screenName := "V&A Waterfront Digital",
      screenType := "Digital Screen", location := "V&A Waterfront, Cape Town",
      region := "Western Cape", gpsLatitude := some "-33.9036",
      gpsLongitude := some "18.4208", dimensions := some "3m x 5m",
      resolution := some "3840x2160", facing := some "West-facing",
      dailyRate := 600000, weeklyRate := some 3500000,
      monthlyRate := some 13000000, status := .available, illuminated := true,
      digital := true, trafficCount := some 95000, active := true } now
  let r := createInventoryItem r.1
    { supplierId := sup2, screenName := "N2 Airport Approach CPT",
      screenType := "Billboard", location := "N2 Highway, Cape Town Airport",
      region := "Western Cape", gpsLatitude := some "-33.9648",
      gpsLongitude := some "18.6017", dimensions := some "6m x 3m",
      facing := some "North-facing", dailyRate := 400000,
      weeklyRate := some 2200000, monthlyRate := some 8200000,
      status := .maintenance, illuminated := true, digital := false,
      trafficCount := some 55000,
      notes := some "Scheduled maintenance until March 2026",
      active := true } now
  let r := createInventoryItem r.1
    { supplierId := sup2, screenName := "Durban Beachfront LED",
      screenType := "LED Wall", location := "Golden Mile, Durban Beachfront",
      region := "KwaZulu-Natal", gpsLatitude := some "-29.8587",
      gpsLongitude := some "31.0218", dimensions := some "8m x 4m",
      resolution := some "3840x2160", facing := some "East-facing",
      dailyRate := 700000, weeklyRate := some 4000000,
      monthlyRate := some 15000000, status := .available, illuminated := true,
      digital := true, trafficCount := some 70000, active := true } now
  let r := createInventoryItem r.1
    { supplierId := sup1, screenName := "Pretoria CBD Bus Shelter",
      screenType := "Street Furniture", location := "Church Street, Pretoria CBD",
      region := "Gauteng", gpsLatitude := some "-25.7479",
      gpsLongitude := some "28.1893", dimensions := some "1.8m x 1.2m",
      facing := some "Both sides", dailyRate := 80000,
      weeklyRate := some 450000, monthlyRate := some 1500000,
      status := .available, illuminated := false, digital := false,
      trafficCount := some 25000, active := true } now
  let r := createInventoryItem r.1
    { supplierId := sup2, screenName := "Menlyn Mall Digital",
      screenType := "Digital Screen", location := "Menlyn Park Shopping Centre",
      region := "Gauteng", gpsLatitude := some "-25.7833",
      gpsLongitude := some "28.2778", dimensions := some "2m x 3m",
      resolution := some "1920x1080", facing := some "Indoor",
      dailyRate := 300000, weeklyRate := some 1700000,
      monthlyRate := some 6000000, status := .reserved, illuminated := true,
      digital := true, trafficCount := some 40000, active := true } now
  (r.1, SeedResp.created)

/-- The user / supplier / campaign / booking / invoice fixtures created
when no `admin` user exists, in source order, ending in the shared
inventory tail. -/
def seedFreshFixtures (st : St) (now : Nat) : St × SeedResp :=
  let r := createUser st
    { username := "admin", password := "admin123",
      fullName := "System Administrator", email := "admin@gov.za",
      role := .department_admin, active := true }
  let admin := r.2
  let r := createUser r.1
    { username := "planner", password := "planner123",
      fullName := "Jane Mokoena", email := "jane.mokoena@gov.za",
      role := .campaign_planner, active := true }
  let r := createUser r.1
    { username := "finance", password := "finance123",
      fullName := "Thabo Nkosi", email := "thabo.nkosi@gov.za",
      role := .finance_officer, active := true }
  let r := createUser r.1
    { username := "supplier", password := "supplier123",
      fullName := "Supplier Manager", email := "manager@supplier.co.za",
      role := .supplier_admin, active := true }
  let r := createUser r.1
    { username := "auditor", password := "auditor123",
      fullName := "Audit Officer", email := "audit@gov.za",
      role := .auditor, active := true }
  let r1 := createSupplier r.1
    { name := "JCDecaux South Africa", contactPerson := "Sarah van der Merwe",
      email := "sarah@jcdecaux.co.za", phone := some "+27 11 555 0001",
      address := some "Johannesburg, Gauteng", active := true }
  let supplier1 := r1.2
  let r2 := createSupplier r1.1
    { name := "Primedia Outdoor", contactPerson := "David Pillay",
      email := "david@primedia.co.za", phone := some "+27 21 555 0002",
      address := some "Cape Town, Western Cape", active := true }
  let supplier2 := r2.2
  let rc1 := createCampaign r2.1
    { name := "Public Health Awareness Q1",
      description := some "National health awareness campaign targeting urban areas",
      status := .in_progress, budget := some 45000000,
      startDate := some 20260115, endDate := some 20260331,
      region := some "Gauteng", targetReach := some 500000,
      createdBy := admin.id } now
  let campaign1 := rc1.2
  let rc2 := createCampaign rc1.1
    { name := "Road Safety Campaign",
      description := some "Easter road safety awareness billboards",
      status := .draft, budget := some 28000000,
      startDate := some 20260401, endDate := some 20260430,
      region := some "Western Cape", targetReach := some 300000,
      createdBy := admin.id } now
  let campaign2 := rc2.2
  let r := createBooking rc2.1
    { campaignId := campaign1.id, supplierId := supplier1.id,
      siteDescription := "N1 Highway Billboard - Midrand",
      location := some "Midrand, Gauteng", mediaType := some "Billboard",
      cost := some 8500000, status := .approved,
      startDate := some 20260115, endDate := some 20260331 } now
  let r := createBooking r.1
    { campaignId := campaign1.id, supplierId := supplier2.id,
      siteDescription := "Sandton City Digital Screen",
      location := some "Sandton, Gauteng", mediaType := some "Digital",
      cost := some 12000000, status := .in_progress,
      startDate := some 20260201, endDate := some 20260331 } now
  let r := createBooking r.1
    { campaignId := campaign2.id, supplierId := supplier2.id,
      siteDescription := "N2 Cape Town Airport Approach",
      location := some "Cape Town, Western Cape", mediaType := some "Billboard",
      cost := some 9500000, status := .pending,
      startDate := some 20260401, endDate := some 20260430 } now
  let r := createInvoice r.1
    { campaignId := campaign1.id, supplierId := some supplier1.id,
      invoiceNumber := "INV-2026-001", amount := 8500000, status := "paid",
      issuedAt := some 20260120, dueDate := some 20260220 } now
  let r := createInvoice r.1
    { campaignId := campaign1.id, supplierId := some supplier2.id,
      invoiceNumber := "INV-2026-002", amount := 12000000, status := "sent",
      issuedAt := some 20260205, dueDate := some 20260305 } now
  seedInventory r.1 supplier1.id supplier2.id now

/-- `POST /api/seed`: answer "already exists" when the `admin` user exists
and the inventory table is nonempty; otherwise create the fixtures.  When
`admin` exists but inventory is empty, the handler reads the existing
suppliers — with no supplier on file, `allSuppliers[0].id` raises a
TypeError that the catch converts to a 500 with nothing written. -/
def seedHandler (st : St) (now : Nat) : St × SeedResp :=
  let existing := getUserByUsername st "admin"
  let existingInventory := getInventory st
  if existing.isSome && decide (existingInventory.length > 0) then
    (st, SeedResp.alreadyExists)
  else
    match existing with
    | none => seedFreshFixtures st now
    | some _ =>
        let allSuppliers := getSuppliers st
        match allSuppliers.head? with
        | none => (st, SeedResp.serverError)
        | some s1 =>
            let supplier2 := (allSuppliers.get? 1).getD s1
            seedInventory st s1.id supplier2.id now

/-! ## Concrete fixtures for the inventory access-control findings -/

/-- A supplier-role caller affiliated with supplier `sup-1`. -/
def c1Caller : User :=
  { id := "user-1", username := "supplier1", password := "pw1",
    fullName := "Supplier One Admin", email := "one@supplier.test",
    role := .supplier_admin, supplierId := some "sup-1", active := true }

/-- An inventory item owned by the caller's supplier. -/
def c1ItemOwn : Inventory :=
  { id := "inv-1", supplierId := "sup-1", screenName := "Own Screen",
    screenType := "Billboard", location := "Loc A", region := "Gauteng",
    gpsLatitude := none, gpsLongitude := none, dimensions := none,
    resolution := none, facing := none, dailyRate := 100000,
    weeklyRate := none, monthlyRate := none, status := .available,
    availableFrom := none, availableTo := none, illuminated := false,
    digital := false, trafficCount := none, notes := none, active := true,
    updatedAt := 0 }

/-- An inventory item owned by a different supplier, `sup-2`. -/
def c1ItemOther : Inventory :=
  { c1ItemOwn with
    id := "inv-2"
    supplierId := "sup-2"
    screenName := "Other Screen" }

/-- A store holding the supplier-role caller and both suppliers' items. -/
def c1St : St :=
  { users := [c1Caller], inventory := [c1ItemOwn, c1ItemOther] }

/-- A supplier-role caller with no supplier affiliation. -/
def c3Caller : User :=
  { id := "user-3", username := "supplier3", password := "pw3",
    fullName := "Unaffiliated Supplier User", email := "three@supplier.test",
    role := .supplier_user, supplierId := none, active := true }

/-- A store holding the unaffiliated supplier-role caller and one item. -/
def c3St : St := { users := [c3Caller], inventory := [c1ItemOther] }

/-- A supplier-role caller affiliated with `sup-1` who posts inventory. -/
def c2Caller : User :=
  { id := "user-2", username := "supplier2", password := "pw2",
    fullName := "Supplier Two User", email := "two@supplier.test",
    role := .supplier_user, supplierId := some "sup-1", active := true }

/-- A create body whose `supplierId` names a different supplier, `sup-2`. -/
def c2Body : InventoryBody :=
  { supplierId := some "sup-2", screenName := some "Planted Screen",
    screenType := some "Billboard", location := some "Loc X",
    region := some "Gauteng", dailyRate := some 100000 }

/-- The store the supplier-role caller posts against. -/
def c2St : St := { users := [c2Caller] }

/-- The row `POST /api/inventory` persists for `c2Body`. -/
def c2Created : Inventory :=
  { id := "uuid-0", supplierId := "sup-2", screenName := "Planted Screen",
    screenType := "Billboard", location := "Loc X", region := "Gauteng",
    gpsLatitude := none, gpsLongitude := none, dimensions := none,
    resolution := none, facing := none, dailyRate := 100000,
    weeklyRate := none, monthlyRate := none, status := .available,
    availableFrom := none, availableTo := none, illuminated := false,
    digital := false, trafficCount := none, notes := none, active := true,
    updatedAt := 7 }

/-- A stored user for the login finding. -/
def c8User : User :=
  { id := "user-8", username := "admin", password := "admin123",
    fullName := "System Administrator", email := "admin@gov.za",
    role := .department_admin, supplierId := none, active := true }

/-- The store the login finding runs against. -/
def c8St : St := { users := [c8User] }

/-! ## C1 — GET /api/inventory is not supplier-scoped -/

/-- C1: the claim that a supplier-role caller's inventory listing contains
only items of the caller's own supplier fails on the code: the handler
applies the query-string filters and nothing else, so the supplier-role
caller affiliated with `sup-1` receives the full table, `sup-2`'s item
included.  The handler does not even take the caller's identity. -/
theorem getInventory_not_supplier_scoped :
    c1Caller ∈ c1St.users ∧
    c1Caller.role = Role.supplier_admin ∧
    c1Caller.supplierId = some "sup-1" ∧
    getInventoryHandler c1St {} = [c1ItemOwn, c1ItemOther] ∧
    c1ItemOther ∈ getInventoryHandler c1St {} ∧
    c1ItemOther.supplierId ≠ "sup-1" := by
  refine ⟨?_, rfl, rfl, rfl, ?_, ?_⟩ <;> decide

/-! ## C3 — unaffiliated supplier-role caller does not get an empty list -/

/-- C3: the claim that a supplier-role caller with no `supplierId` receives
the empty list fails on the code: the handler ignores the caller entirely,
so the unaffiliated supplier-role caller receives every item. -/
theorem getInventory_unaffiliated_not_empty :
    c3Caller ∈ c3St.users ∧
    c3Caller.role = Role.supplier_user ∧
    c3Caller.supplierId = none ∧
    getInventoryHandler c3St {} = [c1ItemOther] ∧
    getInventoryHandler c3St {} ≠ [] := by
  refine ⟨?_, rfl, rfl, rfl, ?_⟩ <;> decide

/-! ## C2 — the server does not force a supplier caller's supplierId -/

/-- C2 counterexample: a supplier-role caller affiliated with `sup-1`
posts a body naming `sup-2`; the server persists `sup-2` verbatim, so the
created item's `supplierId` is not the caller's affiliation. -/
theorem postInventory_keeps_body_supplierId :
    c2Caller ∈ c2St.users ∧
    c2Caller.role = Role.supplier_user ∧
    c2Caller.supplierId = some "sup-1" ∧
    postInventory c2St c2Body 7 =
      ({ c2St with inventory := [c2Created], nextId := 1 },
       InventoryResp.created c2Created) ∧
    c2Created.supplierId ≠ "sup-1" := by
  refine ⟨?_, rfl, rfl, rfl, ?_⟩ <;> decide

/-! ## C8 — login with an empty password answers 400, not 401 -/

/-- C8 counterexample: with the `admin` user on file, supplying an empty
password (which differs from the stored one) produces the 400 missing-
credentials response, not the 401 the claim requires for a wrong
password. -/
theorem login_empty_password_is_bad_request :
    getUserByUsername c8St "admin" = some c8User ∧
    c8User.password ≠ "" ∧
    login c8St "admin" "" =
      LoginResp.badRequest "Username and password are required" ∧
    ∀ m, login c8St "admin" "" ≠ LoginResp.unauthorized m := by
  refine ⟨rfl, ?_, rfl, ?_⟩
  · decide
  · intro m h
    simp [login, jsTruthyStr] at h

/-! ## C4 — dashboard total spend -/

/-- A SQL `SUM` fold that has already seen the value `a` adds up the
remaining non-null values exactly. -/
theorem sqlSum_foldl_some (xs : List (Option Int)) (a : Int) :
    xs.foldl (fun acc x =>
      match x with
      | none => acc
      | some v => some (acc.getD 0 + v)) (some a) =
    some (a + (xs.filterMap id).sum) := by
  induction xs generalizing a with
  | nil => simp
  | cons x xs ih =>
    cases x with
    | none => simpa using ih a
    | some v => simp [ih, Int.add_assoc]

/-- SQL `SUM` is NULL exactly on an all-NULL column and otherwise the exact
sum of the non-null values. -/
theorem sqlSum_eq (xs : List (Option Int)) :
    sqlSum xs =
      if xs.filterMap id = [] then none else some (xs.filterMap id).sum := by
  induction xs with
  | nil => simp [sqlSum]
  | cons x xs ih =>
    cases x with
    | none => simpa [sqlSum] using ih
    | some v => simp [sqlSum, sqlSum_foldl_some]

/-- The decimal rendering of an exact numeric is never the empty string. -/
theorem decimalToString_ne_empty (n : Int) : decimalToString n ≠ "" := by
  unfold decimalToString
  intro h
  have hl := congrArg String.length h
  have hdot : (".").length = 1 := rfl
  simp [String.length_append, hdot] at hl

/-- C4: `getDashboardStats` reports as `totalSpend` the exact decimal sum
of the non-null `cost` values across the bookings table, rendered as a
decimal string, and the literal string `"0"` when the SQL sum is NULL — in
particular on an empty bookings table; the result is a string, never a
null or NaN. -/
theorem getDashboardStats_totalSpend (st : St) :
    (getDashboardStats st).totalSpend =
      (if st.bookings.filterMap Booking.cost = [] then "0"
       else decimalToString (st.bookings.filterMap Booking.cost).sum) ∧
    (st.bookings = [] → (getDashboardStats st).totalSpend = "0") := by
  have hmap : (st.bookings.map Booking.cost).filterMap id =
      st.bookings.filterMap Booking.cost := by
    rw [List.filterMap_map]
    rfl
  have hmain : (getDashboardStats st).totalSpend =
      (if st.bookings.filterMap Booking.cost = [] then "0"
       else decimalToString (st.bookings.filterMap Booking.cost).sum) := by
    show jsOrStr ((sqlSum (st.bookings.map Booking.cost)).map decimalToString)
        "0" = _
    rw [sqlSum_eq, hmap]
    by_cases hnil : st.bookings.filterMap Booking.cost = []
    · simp [hnil, jsOrStr]
    · have hne := decimalToString_ne_empty
        (st.bookings.filterMap Booking.cost).sum
      simp [hnil, jsOrStr, hne]
  refine ⟨hmain, fun hempty => ?_⟩
  rw [hmain, hempty]
  simp

/-! ## C5 — campaign validation rejects without persisting -/

/-- C5: a `POST /api/campaigns` body with the required `name` missing is
answered with the validation error naming `name`, and the store is
untouched — nothing is partially persisted. -/
theorem postCampaigns_validation_rejects (st : St) (b : CampaignBody)
    (now : Nat) (h : b.name = none) :
    (postCampaigns st b now).1 = st ∧
    ∃ fields,
      (postCampaigns st b now).2 = CampaignResp.validationError fields ∧
      "name" ∈ fields := by
  unfold postCampaigns validateCampaign
  rw [h]
  cases hcb : b.createdBy <;>
    refine ⟨rfl, _, rfl, ?_⟩ <;> simp [h]

/-- C5 witness: the empty body against the empty store. -/
theorem postCampaigns_validation_rejects_witness :
    (postCampaigns {} {} 0).1 = {} ∧
    ∃ fields,
      (postCampaigns ({} : St) ({} : CampaignBody) 0).2 =
        CampaignResp.validationError fields ∧
      "name" ∈ fields :=
  postCampaigns_validation_rejects {} {} 0 rfl

/-! ## C6 — toggling `active` never deletes the row -/

/-- Rewriting the matching rows in place does not disturb what a
subsequent select-by-id sees: it finds the first matching row, rewritten,
provided the rewrite preserves the id. -/
theorem find?_map_update {α : Type} (rows : List α) (getId : α → String)
    (id : String) (f : α → α) (hf : ∀ r, getId (f r) = getId r) :
    ((rows.map fun r => if getId r == id then f r else r).find?
        fun r => getId r == id) =
    (rows.find? fun r => getId r == id).map f := by
  induction rows with
  | nil => rfl
  | cons a l ih =>
    simp only [List.map_cons]
    rw [List.find?_cons, List.find?_cons]
    by_cases hb : (getId a == id) = true
    · have hfa : (getId (f a) == id) = true := by rw [hf a]; exact hb
      rw [if_pos hb, hfa, hb]
      rfl
    · have hb' : (getId a == id) = false := by
        cases hgb : getId a == id
        · rfl
        · exact absurd hgb hb
      rw [if_neg hb, hb', ih]

/-- C6: updating a user or a supplier with a payload that only toggles
`active` keeps the row in place: the update returns the row with the new
flag and all other fields unchanged, and a subsequent get by the same id
still returns it. -/
theorem update_active_toggle_keeps_row (st : St) (uid sid : String)
    (b c : Bool) (u : User) (s : Supplier)
    (hu : getUser st uid = some u) (hs : getSupplier st sid = some s) :
    (updateUser st uid { active := some b }).2 = some { u with active := b } ∧
    getUser (updateUser st uid { active := some b }).1 uid =
      some { u with active := b } ∧
    (updateSupplier st sid { active := some c }).2 =
      some { s with active := c } ∧
    getSupplier (updateSupplier st sid { active := some c }).1 sid =
      some { s with active := c } := by
  have hpu : applyUserPatch { active := some b } u = { u with active := b } := by
    simp [applyUserPatch]
  have hps : applySupplierPatch { active := some c } s =
      { s with active := c } := by
    simp [applySupplierPatch]
  have hu' : (st.users.find? fun r => User.id r == uid) = some u := hu
  have hs' : (st.suppliers.find? fun r => Supplier.id r == sid) = some s := hs
  have hu2 : (updateUser st uid { active := some b }).2 =
      some { u with active := b } := by
    have e : (updateUser st uid { active := some b }).2 =
        (st.users.find? fun r => User.id r == uid).map
          (applyUserPatch { active := some b }) := rfl
    rw [e, hu', Option.map_some', hpu]
  have hs2 : (updateSupplier st sid { active := some c }).2 =
      some { s with active := c } := by
    have e : (updateSupplier st sid { active := some c }).2 =
        (st.suppliers.find? fun r => Supplier.id r == sid).map
          (applySupplierPatch { active := some c }) := rfl
    rw [e, hs', Option.map_some', hps]
  refine ⟨hu2, ?_, hs2, ?_⟩
  · have e : getUser (updateUser st uid { active := some b }).1 uid =
        ((st.users.map fun r => if User.id r == uid then
            applyUserPatch { active := some b } r else r).find?
          fun r => User.id r == uid) := rfl
    rw [e, find?_map_update st.users User.id uid
      (applyUserPatch { active := some b }) (fun r => rfl), hu',
      Option.map_some', hpu]
  · have e : getSupplier (updateSupplier st sid { active := some c }).1 sid =
        ((st.suppliers.map fun r => if Supplier.id r == sid then
            applySupplierPatch { active := some c } r else r).find?
          fun r => Supplier.id r == sid) := rfl
    rw [e, find?_map_update st.suppliers Supplier.id sid
      (applySupplierPatch { active := some c }) (fun r => rfl), hs',
      Option.map_some', hps]

/-- A stored user for the toggle witness. -/
def c6User : User :=
  { id := "u-6", username := "toggleme", password := "pw6",
    fullName := "Toggle Target", email := "six@gov.za",
    role := .campaign_planner, supplierId := none, active := true }

/-- A stored supplier for the toggle witness. -/
def c6Supplier : Supplier :=
  { id := "s-6", name := "Toggle Outdoor", contactPerson := "T. Oggle",
    email := "toggle@supplier.test", phone := none, address := none,
    active := true }

/-- The store for the toggle witness. -/
def c6St : St := { users := [c6User], suppliers := [c6Supplier] }

/-- C6 witness: deactivate the concrete stored user and supplier. -/
theorem update_active_toggle_keeps_row_witness :
    (updateUser c6St "u-6" { active := some false }).2 =
      some { c6User with active := false } ∧
    getUser (updateUser c6St "u-6" { active := some false }).1 "u-6" =
      some { c6User with active := false } ∧
    (updateSupplier c6St "s-6" { active := some false }).2 =
      some { c6Supplier with active := false } ∧
    getSupplier (updateSupplier c6St "s-6" { active := some false }).1 "s-6" =
      some { c6Supplier with active := false } :=
  update_active_toggle_keeps_row c6St "u-6" "s-6" false false c6User
    c6Supplier (by decide) (by decide)

/-! ## C7 — every inventory update refreshes `updatedAt` -/

/-- C7: updating an existing inventory item with any payload succeeds and
stamps the row with the instant of the update: both the returned row and
the stored row are the patched item with `updatedAt` set to `now`. -/
theorem updateInventoryItem_refreshes_updatedAt (st : St) (id : String)
    (p : InventoryPatch) (now : Nat) (it : Inventory)
    (h : getInventoryItem st id = some it) :
    (updateInventoryItem st id p now).2 =
      some { applyInventoryPatch p it with updatedAt := now } ∧
    ((updateInventoryItem st id p now).2.map Inventory.updatedAt) = some now ∧
    getInventoryItem (updateInventoryItem st id p now).1 id =
      some { applyInventoryPatch p it with updatedAt := now } := by
  have h' : (st.inventory.find? fun r => Inventory.id r == id) = some it := h
  have h2 : (updateInventoryItem st id p now).2 =
      some { applyInventoryPatch p it with updatedAt := now } := by
    have e : (updateInventoryItem st id p now).2 =
        (st.inventory.find? fun r => Inventory.id r == id).map
          (fun i => { applyInventoryPatch p i with updatedAt := now }) := rfl
    rw [e, h', Option.map_some']
  refine ⟨h2, by rw [h2]; rfl, ?_⟩
  have e : getInventoryItem (updateInventoryItem st id p now).1 id =
      ((st.inventory.map fun r => if Inventory.id r == id then
          { applyInventoryPatch p r with updatedAt := now } else r).find?
        fun r => Inventory.id r == id) := rfl
  rw [e, find?_map_update st.inventory Inventory.id id
    (fun i => { applyInventoryPatch p i with updatedAt := now })
    (fun r => rfl), h', Option.map_some']

/-- The store for the `updatedAt` witness: the `sup-1` fixture item. -/
def c7St : St := { inventory := [c1ItemOwn] }

/-- C7 witness: a status-only update of the concrete item at instant 42. -/
theorem updateInventoryItem_refreshes_updatedAt_witness :
    (updateInventoryItem c7St "inv-1" { status := some .booked } 42).2 =
      some { applyInventoryPatch { status := some .booked } c1ItemOwn with
              updatedAt := 42 } ∧
    ((updateInventoryItem c7St "inv-1" { status := some .booked } 42).2.map
        Inventory.updatedAt) = some 42 ∧
    getInventoryItem
        (updateInventoryItem c7St "inv-1" { status := some .booked } 42).1
        "inv-1" =
      some { applyInventoryPatch { status := some .booked } c1ItemOwn with
              updatedAt := 42 } :=
  updateInventoryItem_refreshes_updatedAt c7St "inv-1"
    { status := some .booked } 42 c1ItemOwn (by decide)

/-! ## C10 — deleteCampaign removes only the campaign row -/

/-- C10: deleting a campaign touches the campaigns table alone — users,
suppliers, bookings, documents, invoices and inventory are untouched, so
rows referencing the deleted campaign are left dangling; exactly the rows
with the given id disappear; the result is `true` exactly when such a row
existed; and on `false` the whole store is unchanged. -/
theorem deleteCampaign_frame (st : St) (id : String) :
    ((deleteCampaign st id).1).users = st.users ∧
    ((deleteCampaign st id).1).suppliers = st.suppliers ∧
    ((deleteCampaign st id).1).bookings = st.bookings ∧
    ((deleteCampaign st id).1).documents = st.documents ∧
    ((deleteCampaign st id).1).invoices = st.invoices ∧
    ((deleteCampaign st id).1).inventory = st.inventory ∧
    (∀ c, c ∈ st.campaigns → c.id ≠ id →
      c ∈ ((deleteCampaign st id).1).campaigns) ∧
    (∀ c, c ∈ ((deleteCampaign st id).1).campaigns →
      c ∈ st.campaigns ∧ c.id ≠ id) ∧
    ((deleteCampaign st id).2 = true ↔ ∃ c ∈ st.campaigns, c.id = id) ∧
    ((deleteCampaign st id).2 = false → (deleteCampaign st id).1 = st) := by
  refine ⟨rfl, rfl, rfl, rfl, rfl, rfl, ?_, ?_, ?_, ?_⟩
  · intro c hc hne
    show c ∈ st.campaigns.filter fun c => !(c.id == id)
    simp [List.mem_filter, hc, hne]
  · intro c hc
    have := List.mem_filter.mp hc
    simpa using this
  · show decide (0 < (st.campaigns.filter fun c => c.id == id).length) = true ↔ _
    simp [List.length_pos, List.filter_eq_nil_iff]
  · intro hfalse
    have hlen : (st.campaigns.filter fun c => c.id == id).length = 0 := by
      have := of_decide_eq_false hfalse
      omega
    have hnone : ∀ c ∈ st.campaigns, ¬(c.id == id) = true := by
      have hnil := List.length_eq_zero.mp hlen
      intro c hc
      exact (List.filter_eq_nil_iff.mp hnil) c hc
    have hkeep : (st.campaigns.filter fun c => !(c.id == id)) = st.campaigns :=
      List.filter_eq_self.mpr fun c hc => by
        simpa using hnone c hc
    show { st with campaigns := st.campaigns.filter fun c => !(c.id == id) } = st
    rw [hkeep]

/-! ## C2 amended — the forcing lives in the client form, not the server -/

/-- A body the insert schema accepts names the supplier the created row is
filed under: validation passes the body's `supplierId` through. -/
theorem validateInventory_ok_supplierId (b : InventoryBody)
    (d : InsertInventory) (h : validateInventory b = .ok d) :
    b.supplierId = some d.supplierId := by
  unfold validateInventory at h
  split at h
  · injection h with h'
    rw [← h']
    assumption
  · simp at h

/-- The server-side create persists the body's `supplierId` verbatim: a
successful `POST /api/inventory` yields a row whose `supplierId` is the
body's. -/
theorem postInventory_created_supplierId (st : St) (b : InventoryBody)
    (now : Nat) (item : Inventory)
    (h : (postInventory st b now).2 = InventoryResp.created item) :
    b.supplierId = some item.supplierId := by
  unfold postInventory at h
  split at h
  next fields heq => simp at h
  next d heq =>
    have h2 : InventoryResp.created (createInventoryItem st d now).2 =
        InventoryResp.created item := h
    injection h2 with h3
    have hv := validateInventory_ok_supplierId b d heq
    rw [hv, ← h3]
    rfl

/-- C2 amended: the supplier forcing happens in the client form submit —
when the authenticated user has a supplier role and a (truthy) affiliation,
`handleSubmit` overrides the form's supplier with the user's own, so any
item created through the UI carries the caller's affiliation.  (The server
itself persists whatever `supplierId` the request body carries.) -/
theorem client_create_forces_supplierId (st : St) (now : Nat) (u : AuthUser)
    (fd : InventoryForm) (s : String) (item : Inventory)
    (hrole : u.role = Role.supplier_admin ∨ u.role = Role.supplier_user)
    (haff : u.supplierId = some s) (hs : ¬ s = "")
    (hok : (postInventory st (buildInventoryBody (some u) fd) now).2 =
      InventoryResp.created item) :
    item.supplierId = s := by
  have hb : (buildInventoryBody (some u) fd).supplierId = some s := by
    rcases hrole with h | h <;>
      simp [buildInventoryBody, hasRole, h, haff, jsTruthyStr, hs]
  have hthru := postInventory_created_supplierId st _ now item hok
  rw [hb] at hthru
  exact (Option.some_inj.mp hthru).symm

/-- The supplier-affiliated user behind the client-forcing witness. -/
def c2wUser : AuthUser :=
  { id := "u-w2", username := "wsup", fullName := "Witness Supplier",
    email := "w@supplier.test", role := .supplier_admin,
    supplierId := some "sup-9", active := true }

/-- The form data of the client-forcing witness; its supplier field names
a different supplier, `sup-2`. -/
def c2wForm : InventoryForm :=
  { supplierId := some "sup-2", screenName := some "Witness Screen",
    screenType := some "Billboard", location := some "Loc W",
    region := some "Gauteng", dailyRate := some 500000 }

/-- The row the witness submission creates. -/
def c2wItem : Inventory :=
  { id := "uuid-0", supplierId := "sup-9", screenName := "Witness Screen",
    screenType := "Billboard", location := "Loc W", region := "Gauteng",
    gpsLatitude := none, gpsLongitude := none, dimensions := none,
    resolution := none, facing := none, dailyRate := 500000,
    weeklyRate := none, monthlyRate := none, status := .available,
    availableFrom := none, availableTo := none, illuminated := false,
    digital := false, trafficCount := none, notes := none, active := true,
    updatedAt := 3 }

/-- C2 amended witness: the concrete submission lands under the caller's
own supplier `sup-9`, not the form's `sup-2`. -/
theorem client_create_forces_supplierId_witness :
    (postInventory {} (buildInventoryBody (some c2wUser) c2wForm) 3).2 =
      InventoryResp.created c2wItem ∧
    c2wItem.supplierId = "sup-9" :=
  ⟨rfl, client_create_forces_supplierId {} 3 c2wUser c2wForm "sup-9" c2wItem
    (Or.inl rfl) rfl (by decide) rfl⟩

/-! ## C8 amended — the login contract with the 400 guard -/

/-- C8 amended: with a falsy username or password the endpoint answers 400
and returns no user data; with both nonempty it answers 200 with the
password-stripped user exactly when the stored password matches, and 401
otherwise (user missing or password different). -/
theorem login_contract (st : St) (username password : String) :
    ((username = "" ∨ password = "") →
      login st username password =
        LoginResp.badRequest "Username and password are required") ∧
    (¬ username = "" → ¬ password = "" →
      (∀ u, getUserByUsername st username = some u →
        login st username password =
          (if u.password = password then LoginResp.ok (stripPassword u)
           else LoginResp.unauthorized "Invalid credentials")) ∧
      (getUserByUsername st username = none →
        login st username password =
          LoginResp.unauthorized "Invalid credentials")) := by
  constructor
  · rintro (h | h) <;> simp [login, jsTruthyStr, h]
  · intro hu hp
    constructor
    · intro u hfind
      by_cases hpw : u.password = password <;>
        simp [login, jsTruthyStr, hu, hp, hfind, hpw]
    · intro hfind
      simp [login, jsTruthyStr, hu, hp, hfind]

/-! ## C9 — POST /api/seed is idempotent after a successful run -/

set_option maxHeartbeats 4000000 in
/-- The inventory tail of the seed handler never touches the users table. -/
theorem seedInventory_users (st : St) (a b : String) (n : Nat) :
    (seedInventory st a b n).1.users = st.users := by
  simp [seedInventory, createInventoryItem]

set_option maxHeartbeats 4000000 in
/-- The inventory tail of the seed handler appends eight rows, so it
leaves the inventory table nonempty. -/
theorem seedInventory_inventory_ne_nil (st : St) (a b : String) (n : Nat) :
    (seedInventory st a b n).1.inventory ≠ [] := by
  simp [seedInventory, createInventoryItem]

/-- A select whose predicate already matches in the appended suffix
succeeds on the extended table. -/
theorem find?_isSome_append_right {α : Type} (l1 l2 : List α) (p : α → Bool)
    (h : (l2.find? p).isSome = true) :
    ((l1 ++ l2).find? p).isSome = true := by
  rw [List.find?_append]
  cases hx : l1.find? p
  · simpa [Option.or] using h
  · rfl

set_option maxHeartbeats 4000000 in
/-- A fresh fixture run records the `admin` user: afterwards the lookup by
username succeeds. -/
theorem seedFreshFixtures_admin_isSome (st : St) (n : Nat) :
    (getUserByUsername (seedFreshFixtures st n).1 "admin").isSome = true := by
  obtain ⟨u1, u2, u3, u4, u5, hus, hname⟩ :
      ∃ u1 u2 u3 u4 u5 : User,
        (seedFreshFixtures st n).1.users =
          st.users ++ [u1] ++ [u2] ++ [u3] ++ [u4] ++ [u5] ∧
        u1.username = "admin" := ⟨_, _, _, _, _, rfl, rfl⟩
  show ((seedFreshFixtures st n).1.users.find?
    fun u => u.username == "admin").isSome = true
  rw [hus]
  simp only [List.append_assoc, List.singleton_append, List.cons_append]
  apply find?_isSome_append_right
  rw [List.find?_cons]
  have hb : (u1.username == "admin") = true := by simp [hname]
  rw [hb]
  rfl

set_option maxHeartbeats 4000000 in
/-- A fresh fixture run ends in the inventory tail, so it leaves the
inventory table nonempty. -/
theorem seedFreshFixtures_inventory_ne_nil (st : St) (n : Nat) :
    (seedFreshFixtures st n).1.inventory ≠ [] :=
  seedInventory_inventory_ne_nil _ _ _ _

set_option maxHeartbeats 4000000 in
/-- C9: running `POST /api/seed` again on the state a successful run
produced creates nothing, leaves the store exactly as it was, and reports
that the seed data already exists. -/
theorem seed_idempotent (st0 st1 : St) (n0 n1 : Nat)
    (h : seedHandler st0 n0 = (st1, SeedResp.created)) :
    seedHandler st1 n1 = (st1, SeedResp.alreadyExists) := by
  have key : (getUserByUsername st1 "admin").isSome = true ∧
      st1.inventory ≠ [] := by
    simp only [seedHandler] at h
    split at h
    · simp at h
    · split at h
      · have h1 : _ = st1 := congrArg Prod.fst h
        constructor
        · rw [← h1]
          exact seedFreshFixtures_admin_isSome st0 n0
        · rw [← h1]
          exact seedFreshFixtures_inventory_ne_nil st0 n0
      · split at h
        · simp at h
        · rename_i xu user hadm xs s1 hhead
          have h1 : _ = st1 := congrArg Prod.fst h
          have husers : st1.users = st0.users := by
            rw [← h1]
            rfl
          constructor
          · have hsame : getUserByUsername st1 "admin" =
                getUserByUsername st0 "admin" := by
              unfold getUserByUsername
              rw [husers]
            rw [hsame, hadm]
            rfl
          · rw [← h1]
            exact seedInventory_inventory_ne_nil _ _ _ _
  obtain ⟨hfind, hinv⟩ := key
  have hcond : ((getUserByUsername st1 "admin").isSome &&
      decide ((getInventory st1).length > 0)) = true := by
    rw [hfind]
    simp [getInventory, List.length_pos, hinv]
  simp only [seedHandler]
  rw [if_pos hcond]

set_option maxHeartbeats 4000000 in
/-- A fresh fixture run answers 201 created. -/
theorem seedFreshFixtures_resp (st : St) (n : Nat) :
    (seedFreshFixtures st n).2 = SeedResp.created := by
  simp [seedFreshFixtures, createUser, createSupplier, createCampaign,
    createBooking, createInvoice, seedInventory, createInventoryItem]

set_option maxHeartbeats 4000000 in
/-- C9 witness: seeding the empty store succeeds, and seeding again on the
resulting state reports the data already exists and changes nothing. -/
theorem seed_idempotent_witness :
    seedHandler (seedHandler {} 0).1 1 =
      ((seedHandler {} 0).1, SeedResp.alreadyExists) :=
  seed_idempotent {} (seedHandler {} 0).1 0 1 (by
    have h2 : (seedHandler {} 0).2 = SeedResp.created := by
      simp [seedHandler, getUserByUsername, getInventory,
        seedFreshFixtures_resp]
    calc seedHandler {} 0
        = ((seedHandler {} 0).1, (seedHandler {} 0).2) := rfl
      _ = ((seedHandler {} 0).1, SeedResp.created) := by rw [h2])

end OOH
